import Mathlib

/-!
# Verification of the multi-agent-orchestrator routing / dispatch / tool-recursion core

Shallow embedding of the Python sources:
- `src/python/src/multi_agent_orchestrator/orchestrator.py`
- `src/python/src/multi_agent_orchestrator/agents/bedrock_llm_agent.py`
- `src/examples/supervisor-mode/supervisor_agent.py`

Pure Python functions become Lean functions; opaque collaborators (the model
back-end, the selected agent's `process_request`, the classifier) are passed
in as function parameters; code that may raise is modelled with `Except` /
`Option`; storage writes are modelled as an explicit list of save events.
-/

namespace MAO

/-- A content block of a `ConversationMessage`.  In the Python sources a
content block is a dict with exactly one of the keys `text`, `toolUse`,
`toolResult` (Bedrock converse format); the tagged variant mirrors those keys,
so the Python membership test `'toolUse' in content` becomes the
`isToolUse` discriminator. -/
inductive ContentBlock where
  | text (value : String)
  | toolUse (id : String) (name : String) (input : String)
  | toolResult (id : String) (value : String)
  deriving DecidableEq, Repr

/-- `'toolUse' in content` for a content-block dict. -/
def ContentBlock.isToolUse : ContentBlock → Bool
  | .toolUse _ _ _ => true
  | _ => false

/-- `content.get('text', default)` on a content-block dict: the value under
the `text` key when present. -/
def ContentBlock.getTextOpt : ContentBlock → Option String
  | .text v => some v
  | _ => none

/-- `ConversationMessage` from `orchestrator.py`: a role string and an
ordered list of content blocks. -/
structure ConversationMessage where
  role : String
  content : List ContentBlock
  deriving DecidableEq, Repr

/-- `ParticipantRole.USER.value` -/
def USER : String := "user"

/-- `ParticipantRole.ASSISTANT.value` -/
def ASSISTANT : String := "assistant"

/-- `any('toolUse' in content for content in llm_response.content)` from
`bedrock_llm_agent.py`. -/
def hasToolUse (m : ConversationMessage) : Bool :=
  m.content.any ContentBlock.isToolUse

/-! ## Tool-recursion engine: `BedrockLLMAgent._handle_single_response_loop`

The opaque collaborators of the loop are:
- `model` : the Bedrock `converse` call (`handle_single_response`), a function
  of the message list carried in `command['messages']` (the running
  conversation, updated after each tool round);
- `toolResp` : `_process_tool_block`, which runs every requested tool and
  returns the aggregated USER-role tool-result message; it sees the model
  reply and the running conversation.

The Python loop is

    continue_with_tools = True
    llm_response = None
    while continue_with_tools and max_recursions > 0:
        llm_response = await self.handle_single_response(command)
        conversation.append(llm_response)
        if any('toolUse' in content for content in llm_response.content):
            tool_response = await self._process_tool_block(llm_response, conversation)
            conversation.append(tool_response)
            command['messages'] = conversation_to_dict(conversation)
        else:
            continue_with_tools = False
        max_recursions -= 1
    return llm_response

embedded with `max_recursions` as structural fuel; the value `none` is the
initial `llm_response = None`, returned when the loop body never runs. -/

def handle_single_response_loop
    (model : List ConversationMessage → ConversationMessage)
    (toolResp : ConversationMessage → List ConversationMessage → ConversationMessage)
    (conversation : List ConversationMessage) :
    Nat → Option ConversationMessage
  | 0 => none
  | b + 1 =>
    let r := model conversation
    let conv1 := conversation ++ [r]
    if hasToolUse r then
      let conv2 := conv1 ++ [toolResp r conv1]
      match handle_single_response_loop model toolResp conv2 b with
      | none => some r
      | some r' => some r'
    else
      some r

/-- Number of model invocations (completed rounds) the loop performs, mirroring
`handle_single_response_loop` round for round. -/
def hsr_rounds
    (model : List ConversationMessage → ConversationMessage)
    (toolResp : ConversationMessage → List ConversationMessage → ConversationMessage)
    (conversation : List ConversationMessage) :
    Nat → Nat
  | 0 => 0
  | b + 1 =>
    let r := model conversation
    let conv1 := conversation ++ [r]
    if hasToolUse r then
      let conv2 := conv1 ++ [toolResp r conv1]
      1 + hsr_rounds model toolResp conv2 b
    else
      1

/-- One tool round's effect on the running conversation: append the model
reply, then append the aggregated tool-result message (`conversation.append`
twice in the loop body). -/
def stepConv
    (model : List ConversationMessage → ConversationMessage)
    (toolResp : ConversationMessage → List ConversationMessage → ConversationMessage)
    (c : List ConversationMessage) : List ConversationMessage :=
  let r := model c
  let conv1 := c ++ [r]
  conv1 ++ [toolResp r conv1]

/-- The running conversation at the start of round `i`, assuming every round
before `i` had a tool-bearing reply. -/
def convBefore
    (model : List ConversationMessage → ConversationMessage)
    (toolResp : ConversationMessage → List ConversationMessage → ConversationMessage)
    (conversation : List ConversationMessage) :
    Nat → List ConversationMessage
  | 0 => conversation
  | i + 1 => stepConv model toolResp (convBefore model toolResp conversation i)

lemma hsr_loop_succ
    (model : List ConversationMessage → ConversationMessage)
    (toolResp : ConversationMessage → List ConversationMessage → ConversationMessage)
    (conv : List ConversationMessage) (b : Nat) :
    handle_single_response_loop model toolResp conv (b + 1)
      = if hasToolUse (model conv) then
          match handle_single_response_loop model toolResp
              (stepConv model toolResp conv) b with
          | none => some (model conv)
          | some r' => some r'
        else some (model conv) := rfl

lemma hsr_rounds_succ
    (model : List ConversationMessage → ConversationMessage)
    (toolResp : ConversationMessage → List ConversationMessage → ConversationMessage)
    (conv : List ConversationMessage) (b : Nat) :
    hsr_rounds model toolResp conv (b + 1)
      = if hasToolUse (model conv) then
          1 + hsr_rounds model toolResp (stepConv model toolResp conv) b
        else 1 := rfl

lemma convBefore_succ_eq
    (model : List ConversationMessage → ConversationMessage)
    (toolResp : ConversationMessage → List ConversationMessage → ConversationMessage)
    (conversation : List ConversationMessage) (i : Nat) :
    convBefore model toolResp conversation (i + 1)
      = convBefore model toolResp (stepConv model toolResp conversation) i := by
  induction i with
  | zero => rfl
  | succ n ih =>
    conv_lhs => rw [convBefore]
    rw [ih, ← convBefore]

lemma hsr_loop_all_tools
    (model : List ConversationMessage → ConversationMessage)
    (toolResp : ConversationMessage → List ConversationMessage → ConversationMessage)
    (hall : ∀ c, hasToolUse (model c) = true) :
    ∀ b conv, handle_single_response_loop model toolResp conv (b + 1)
        = some (model (convBefore model toolResp conv b))
      ∧ hsr_rounds model toolResp conv (b + 1) = b + 1 := by
  intro b
  induction b with
  | zero =>
    intro conv
    constructor
    · simp [handle_single_response_loop, hall, convBefore]
    · simp [hsr_rounds, hall]
  | succ n ih =>
    intro conv
    have h1 := (ih (stepConv model toolResp conv)).1
    have h2 := (ih (stepConv model toolResp conv)).2
    constructor
    · rw [hsr_loop_succ]
      simp only [hall, if_true]
      rw [h1, convBefore_succ_eq]
    · rw [hsr_rounds_succ]
      simp only [hall, if_true]
      rw [h2]
      omega

lemma hsr_loop_first_no_tool
    (model : List ConversationMessage → ConversationMessage)
    (toolResp : ConversationMessage → List ConversationMessage → ConversationMessage) :
    ∀ k b conv, k < b →
      (∀ i, i < k → hasToolUse (model (convBefore model toolResp conv i)) = true) →
      hasToolUse (model (convBefore model toolResp conv k)) = false →
      handle_single_response_loop model toolResp conv b
          = some (model (convBefore model toolResp conv k))
        ∧ hsr_rounds model toolResp conv b = k + 1 := by
  intro k
  induction k with
  | zero =>
    intro b conv hkb _ hnk
    obtain ⟨b', rfl⟩ : ∃ b', b = b' + 1 := ⟨b - 1, by omega⟩
    rw [convBefore] at hnk
    constructor
    · rw [hsr_loop_succ, hnk]
      simp [convBefore]
    · rw [hsr_rounds_succ, hnk]
      simp
  | succ n ih =>
    intro b conv hkb htools hnk
    obtain ⟨b', rfl⟩ : ∃ b', b = b' + 1 := ⟨b - 1, by omega⟩
    have htool0 : hasToolUse (model conv) = true := by
      have := htools 0 (by omega)
      rwa [convBefore] at this
    have hrec := ih b' (stepConv model toolResp conv)
      (by omega)
      (by
        intro i hi
        have := htools (i + 1) (by omega)
        rwa [convBefore_succ_eq] at this)
      (by
        have := hnk
        rwa [convBefore_succ_eq] at this)
    constructor
    · rw [hsr_loop_succ]
      simp only [htool0, if_true]
      rw [hrec.1, convBefore_succ_eq]
    · rw [hsr_rounds_succ]
      simp only [htool0, if_true]
      rw [hrec.2]
      omega

/-! ## Orchestrator: `orchestrator.py`

`Config` keeps the fields of the source `Config` dataclass that influence the
values `route_request` computes; the pure logging toggles
(`LOG_*`, `LOG_EXECUTION_TIMES`) and `MAX_RETRIES` only affect log output and
timing bookkeeping, never the returned envelope or the saved messages. -/

structure Config where
  USE_DEFAULT_AGENT_IF_NONE_IDENTIFIED : Bool
  CLASSIFICATION_ERROR_MESSAGE : String
  NO_SELECTED_AGENT_MESSAGE : String
  GENERAL_ROUTING_ERROR_MSG_MESSAGE : String
  MAX_MESSAGE_PAIRS_PER_AGENT : Nat
  deriving DecidableEq, Repr

/-- `DEFAULT_CONFIG = Config()` with the dataclass defaults of
`orchestrator.py`. -/
def DEFAULT_CONFIG : Config where
  USE_DEFAULT_AGENT_IF_NONE_IDENTIFIED := true
  CLASSIFICATION_ERROR_MESSAGE :=
    "I'm sorry, an error occurred while processing your request. Please try again later."
  NO_SELECTED_AGENT_MESSAGE :=
    "I'm sorry, I couldn't determine how to handle your request. Could you please rephrase it?"
  GENERAL_ROUTING_ERROR_MSG_MESSAGE :=
    "An error occurred while processing your request. Please try again later."
  MAX_MESSAGE_PAIRS_PER_AGENT := 100

/-- Python `\s` on the ASCII range (agent names are ASCII in this code base). -/
def isPySpace (c : Char) : Bool :=
  c == ' ' || c == '\t' || c == '\n' || c == '\r' || c == '\x0b' || c == '\x0c'

/-- `[a-zA-Z]` -/
def isAsciiLetter (c : Char) : Bool :=
  ('a' ≤ c && c ≤ 'z') || ('A' ≤ c && c ≤ 'Z')

/-- `re.sub(r'\s+', '-', key)`: each maximal run of whitespace becomes one
hyphen.  The boolean state records whether the previous kept character was
whitespace (i.e. whether we are inside a run already replaced). -/
def collapseWs : Bool → List Char → List Char
  | _, [] => []
  | prevWs, c :: rest =>
    if isPySpace c then
      if prevWs then collapseWs true rest
      else '-' :: collapseWs true rest
    else c :: collapseWs false rest

/-- `Agent.generate_key_from_name` from `orchestrator.py`:

    key = re.sub(r'[^a-zA-Z\s-]', '', name)
    key = re.sub(r'\s+', '-', key)
    return key.lower()
-/
def generate_key_from_name (name : String) : String :=
  let kept := name.data.filter (fun c => isAsciiLetter c || isPySpace c || c == '-')
  String.mk ((collapseWs false kept).map Char.toLower)

/-- The `Agent` base class state set by `Agent.__init__`: `id` is derived from
the name at construction (`generate_key_from_name`) and never changes. -/
structure Agent where
  name : String
  description : String
  save_chat : Bool
  id : String
  deriving DecidableEq, Repr

/-- `Agent.__init__(options)`: name, description and save_chat are copied from
the options, the id is generated from the name. -/
def Agent.ofOptions (name description : String) (save_chat : Bool) : Agent where
  name := name
  description := description
  save_chat := save_chat
  id := generate_key_from_name name

/-- The orchestrator's built-in default agent,
`BedrockLLMAgent(options=BedrockLLMAgentOptions(name="DEFAULT", ...))` from
`MultiAgentOrchestrator.__init__` (`save_chat` defaults to `True` in
`AgentOptions`). -/
def default_agent_def : Agent :=
  Agent.ofOptions "DEFAULT"
    "A knowledgeable generalist capable of addressing a wide range of topics." true

/-- `ClassifierResult` from `orchestrator.py`; `selected_agent` may be absent
(`None`).  Confidence is an exact rational stand-in for the Python float: the
orchestrator never computes with it, it only stores the literal `0` in the
fallback result. -/
structure ClassifierResult where
  selected_agent : Option Agent
  confidence : ℚ
  deriving DecidableEq

/-- Python dict assignment `d[k] = v` on an association list that preserves
insertion order: an existing key keeps its position, a new key is appended. -/
def setParam : List (String × String) → String → String → List (String × String)
  | [], k, v => [(k, v)]
  | p :: rest, k, v => if p.1 == k then (k, v) :: rest else p :: setParam rest k v

lemma lookup_setParam (ps : List (String × String)) (k v : String) :
    (setParam ps k v).lookup k = some v := by
  induction ps with
  | nil => simp [setParam, List.lookup]
  | cons p rest ih =>
    by_cases h : p.1 == k
    · simp [setParam, h, List.lookup]
    · simp only [setParam, h, if_false, List.lookup]
      have h' : (k == p.1) = false := by
        rw [beq_eq_false_iff_ne]
        rw [beq_iff_eq] at h
        intro e
        exact h e.symm
      simp [h', ih]

/-- `AgentProcessingResult` from `orchestrator.py`. -/
structure AgentProcessingResult where
  user_input : String
  agent_id : String
  agent_name : String
  user_id : String
  session_id : String
  additional_params : List (String × String)
  deriving DecidableEq, Repr

/-- What a dispatched agent's `process_request` evaluates to: a complete
`ConversationMessage`, a plain string, or a lazy stream (`AsyncIterable`),
kept opaque. -/
inductive AgentOutput where
  | message (m : ConversationMessage)
  | text (s : String)
  | stream
  deriving DecidableEq, Repr

/-- `AgentResponse` from `orchestrator.py`. -/
structure AgentResponse where
  metadata : AgentProcessingResult
  output : AgentOutput
  streaming : Bool
  deriving DecidableEq, Repr

/-- One `storage.save_chat_message(user_id, session_id, agent_id, message,
max_message_pairs)` call, recorded instead of performed. -/
structure SaveEvent where
  user_id : String
  session_id : String
  agent_id : String
  message : ConversationMessage
  max_message_pairs : Nat
  deriving DecidableEq, Repr

/-- The orchestrator's opaque collaborators for one `route_request` call:
`classify` is `self.classifier.classify(user_input, chat_history)` (it raises
or returns a `ClassifierResult`), `dispatch a` is
`a.process_request(...)` as reached through `dispatch_to_agent` (it raises or
returns the agent's output). -/
structure OrchestratorEnv where
  classify : Except Unit ClassifierResult
  dispatch : Agent → Except Unit AgentOutput

/-- `MultiAgentOrchestrator.create_metadata`. -/
def create_metadata (intent_classifier_result : Option ClassifierResult)
    (user_input user_id session_id : String)
    (additional_params : List (String × String)) : AgentProcessingResult :=
  let base_metadata : AgentProcessingResult :=
    { user_input := user_input
      agent_id := "no_agent_selected"
      agent_name := "No Agent"
      user_id := user_id
      session_id := session_id
      additional_params := additional_params }
  match intent_classifier_result with
  | none =>
    { base_metadata with
        additional_params := setParam additional_params "error_type" "classification_failed" }
  | some r =>
    match r.selected_agent with
    | none =>
      { base_metadata with
          additional_params := setParam additional_params "error_type" "classification_failed" }
    | some a =>
      { base_metadata with agent_id := a.id, agent_name := a.name }

/-- `MultiAgentOrchestrator.get_fallback_result`: the designated default agent
with confidence 0. -/
def get_fallback_result (default_agent : Agent) : ClassifierResult :=
  { selected_agent := some default_agent, confidence := 0 }

/-- `MultiAgentOrchestrator.save_message`: saved only when an agent is
present and its `save_chat` flag is true. -/
def save_message (cfg : Config) (message : ConversationMessage)
    (user_id session_id : String) (agent : Option Agent) : List SaveEvent :=
  match agent with
  | some a =>
    if a.save_chat then
      [{ user_id := user_id, session_id := session_id, agent_id := a.id,
         message := message, max_message_pairs := cfg.MAX_MESSAGE_PAIRS_PER_AGENT }]
    else []
  | none => []

/-- `MultiAgentOrchestrator.dispatch_to_agent`: without a selected agent it
returns a fixed string; otherwise it fetches the agent-scoped history and
invokes the selected agent's `process_request` (opaque here, and the only
step of the body that can raise). -/
def dispatch_to_agent (env : OrchestratorEnv) (classifier_result : ClassifierResult) :
    Except Unit AgentOutput :=
  match classifier_result.selected_agent with
  | none =>
    .ok (.text "I'm sorry, but I need more information to understand your request. Could you please be more specific?")
  | some selected_agent => env.dispatch selected_agent

/-- The `try`/`except` dispatch block of `route_request` (steps after a
selected agent is fixed): dispatch, build metadata, persist the user turn and
— when the output is a complete `ConversationMessage` — the assistant turn,
and wrap everything in an `AgentResponse` with `streaming=False`; a raise
from dispatch is absorbed into the general-routing-error envelope. -/
def route_dispatch (cfg : Config) (env : OrchestratorEnv)
    (user_input user_id session_id : String)
    (additional_params : List (String × String))
    (classifier_result : ClassifierResult) : AgentResponse × List SaveEvent :=
  match dispatch_to_agent env classifier_result with
  | .error _ =>
    ({ metadata := create_metadata (some classifier_result)
          user_input user_id session_id additional_params
       output := .text cfg.GENERAL_ROUTING_ERROR_MSG_MESSAGE
       streaming := false }, [])
  | .ok agent_response =>
    let metadata := create_metadata (some classifier_result)
      user_input user_id session_id additional_params
    let user_saves := save_message cfg
      { role := USER, content := [.text user_input] }
      user_id session_id classifier_result.selected_agent
    let assistant_saves :=
      match agent_response with
      | .message m => save_message cfg m user_id session_id classifier_result.selected_agent
      | _ => []
    ({ metadata := metadata
       output := agent_response
       streaming := false }, user_saves ++ assistant_saves)

/-- `MultiAgentOrchestrator.route_request`: classify (absorbing a classifier
raise into the classification-error envelope), substitute the default agent
when nothing was selected and the config flag allows it, otherwise dispatch.
The second component lists the `save_chat_message` calls the run performs. -/
def route_request (cfg : Config) (env : OrchestratorEnv) (default_agent : Agent)
    (user_input user_id session_id : String)
    (additional_params : List (String × String)) : AgentResponse × List SaveEvent :=
  match env.classify with
  | .error _ =>
    ({ metadata := create_metadata none user_input user_id session_id additional_params
       output := .text cfg.CLASSIFICATION_ERROR_MESSAGE
       streaming := false }, [])
  | .ok classifier_result =>
    match classifier_result.selected_agent with
    | none =>
      if cfg.USE_DEFAULT_AGENT_IF_NONE_IDENTIFIED then
        route_dispatch cfg env user_input user_id session_id additional_params
          (get_fallback_result default_agent)
      else
        ({ metadata := create_metadata (some classifier_result)
              user_input user_id session_id additional_params
           output := .text cfg.NO_SELECTED_AGENT_MESSAGE
           streaming := false }, [])
    | some _ =>
      route_dispatch cfg env user_input user_id session_id additional_params
        classifier_result

/-! ## In-memory conversation store: `InMemoryChatStorage` in `orchestrator.py`

The class (lines 102-110) declares no state of its own: `fetch_chat` and
`fetch_all_chats` return `[]` and `save_chat_message` returns `None` without
storing anything.  Its (absent) state is the unit type, threaded explicitly. -/

/-- `InMemoryChatStorage.save_chat_message`: a no-op returning the unchanged
(empty) state. -/
def InMemoryChatStorage.save_chat_message (st : Unit) (user_id session_id agent_id : String)
    (message : ConversationMessage) (max_message_pairs : Nat) : Unit :=
  st

/-- `InMemoryChatStorage.fetch_chat`: always the empty history. -/
def InMemoryChatStorage.fetch_chat (st : Unit) (user_id session_id agent_id : String) :
    List ConversationMessage :=
  []

/-! ## Supervisor: `src/examples/supervisor-mode/supervisor_agent.py` -/

/-- `content_block.get('text', '')` on the first content block of a message
(`response.content[0].get('text', '')`); the agents in play always return at
least one content block. -/
def firstTextD (m : ConversationMessage) : String :=
  ((m.content.head?).bind ContentBlock.getTextOpt).getD ""

/-- `f'{response.content[0].get('text')}'`: `.get` without a default is
`None` when the key is missing, which the f-string renders as the text
`None`. -/
def pyStrOfGetText (m : ConversationMessage) : String :=
  match (m.content.head?).bind ContentBlock.getTextOpt with
  | some s => s
  | none => "None"

/-- A `storage.save_chat_message(user_id, session_id, agent.id, message)`
call issued by `SupervisorAgent.send_message` (this call site passes no
max-pairs argument). -/
structure SupSaveEvent where
  user_id : String
  session_id : String
  agent_id : String
  message : ConversationMessage
  deriving DecidableEq, Repr

/-- `agent_chat_history` in `SupervisorAgent.send_message`: the member's own
history when its `save_chat` flag is true, else `[]`. -/
def sup_history (fetch_chat : String → String → String → List ConversationMessage)
    (agent : Agent) (user_id session_id : String) : List ConversationMessage :=
  if agent.save_chat then fetch_chat user_id session_id agent.id else []

/-- `SupervisorAgent.send_message`: fetch the member's history (gated by
`save_chat`), run the member's `process_request` (passed in as `process`),
save the user turn and the assistant turn under the member's key — the source
performs both saves unconditionally — and return
`f'{agent.name}: {response.content[0].get('text')}'`. -/
def send_message
    (fetch_chat : String → String → String → List ConversationMessage)
    (process : Agent → String → List ConversationMessage → ConversationMessage)
    (agent : Agent) (content user_id session_id : String) :
    String × List SupSaveEvent :=
  let agent_chat_history := sup_history fetch_chat agent user_id session_id
  let response := process agent content agent_chat_history
  let saves : List SupSaveEvent :=
    [ { user_id := user_id, session_id := session_id, agent_id := agent.id,
        message := { role := USER, content := [.text content] } },
      { user_id := user_id, session_id := session_id, agent_id := agent.id,
        message := { role := ASSISTANT, content := [.text (firstTextD response)] } } ]
  (agent.name ++ ": " ++ pyStrOfGetText response, saves)

/-- `SupervisorAgent.send_messages`: tasks are created by iterating the team
(outer loop) and the message list (inner loop), keeping every pair whose
recipient equals the member's name; `asyncio.gather(*tasks)` returns the
results in task-creation order — team-declaration-major — regardless of which
thread finishes first, and `''.join` concatenates them in that order.  Each
message is a `(recipient, content)` pair. -/
def send_messages
    (fetch_chat : String → String → String → List ConversationMessage)
    (process : Agent → String → List ConversationMessage → ConversationMessage)
    (team : List Agent) (user_id session_id : String)
    (messages : List (String × String)) :
    String × List SupSaveEvent :=
  let results := team.flatMap (fun agent =>
    (messages.filter (fun message => agent.name == message.1)).map
      (fun message => send_message fetch_chat process agent message.2 user_id session_id))
  (String.join (results.map Prod.fst), results.flatMap Prod.snd)

/-- The Bedrock-format branch of `SupervisorAgent._get_tool_use_block`:
`block['toolUse']` when `'toolUse' in block`, as the
`(toolUseId, name, input)` triple read off it. -/
def get_tool_use_block : ContentBlock → Option (String × String × String)
  | .toolUse id name input => some (id, name, input)
  | _ => none

/-- Modelled from the spec: the `ToolResult` class with its
`to_bedrock_format` lives in the `tool` module / `multi_agent_orchestrator.utils`,
which is not among the staged sources.  Per the spec, each result is wrapped
"as a `ToolResult` with the originating `ToolUse.id`": a tool-result content
block carrying that id and the result value. -/
def toolResultToBedrockFormat (id : String) (result : String) : ContentBlock :=
  .toolResult id result

/-- The `for block in content_blocks` loop of
`SupervisorAgent.supervisor_tool_handler` (Bedrock branch), with the
accumulated `tool_results` list as second argument.  The source's `return`
statement sits inside the loop body, so the function returns right after the
first tool-use block it processes; falling off the loop returns `None`. -/
def supervisor_handler_go (process_tool : String → String → String) :
    List ContentBlock → List ContentBlock → Option ConversationMessage
  | [], _ => none
  | block :: rest, tool_results =>
    match get_tool_use_block block with
    | none => supervisor_handler_go process_tool rest tool_results
    | some (tool_id, tool_name, input_data) =>
      let result := process_tool tool_name input_data
      let tool_results := tool_results ++ [toolResultToBedrockFormat tool_id result]
      some { role := USER, content := tool_results }

/-- `SupervisorAgent.supervisor_tool_handler` (Bedrock branch):
raises on an empty content list, then runs the block loop.  `process_tool`
stands for `self._process_tool` (the name-keyed dispatcher over
`send_messages` / `get_current_date` / unknown-tool error strings). -/
def supervisor_tool_handler (process_tool : String → String → String)
    (response : ConversationMessage) : Except String (Option ConversationMessage) :=
  if response.content.isEmpty then
    .error "No content blocks in response"
  else
    .ok (supervisor_handler_go process_tool response.content [])

/-- Number of tool-use blocks in a model reply. -/
def countToolUse (m : ConversationMessage) : Nat :=
  m.content.countP (fun b => b.isToolUse = true)

/-- What `SupervisorAgent.__init__` checks about its underlying agent: the
class of the wrapped model-backed agent.  `BedrockLLMAgent` and
`AnthropicAgent` are the supported classes; anything else hits the final
`RuntimeError`. -/
inductive SupervisorModelKind where
  | bedrockLLM
  | anthropic
  | other
  deriving DecidableEq, Repr

/-- The fields of the underlying agent that `SupervisorAgent.__init__` reads:
name, description, its class (`kind`) and its `tool_config` attribute
(`none` models the Python-falsy unset value `None`; an empty dict is equally
falsy and equally treated as unset). -/
structure UnderlyingAgent where
  name : String
  description : String
  kind : SupervisorModelKind
  tool_config : Option Unit
  deriving DecidableEq, Repr

/-- The two built-in supervisor tools, by name
(`SupervisorAgent.supervisor_tools`). -/
def supervisor_tools : List String := ["send_messages", "get_current_date"]

/-- What a successful `SupervisorAgent.__init__` leaves behind (the fields
the claims touch): the copied name, the derived id, the provider tag, the
installed tool table and the `toolMaxRecursions` bound written into the
underlying agent's `tool_config`. -/
structure SupervisorInitState where
  name : String
  id : String
  supervisor_type : String
  team : List Agent
  tool_names : List String
  toolMaxRecursions : Nat
  deriving DecidableEq, Repr

/-- `SupervisorAgent.__init__`: copy name/description, derive the provider
tag, assemble the tool table, then — in source order — install the tool
config only when the underlying agent has none (`RuntimeError` otherwise),
and finally reject an underlying agent that is neither a `BedrockLLMAgent`
nor an `AnthropicAgent`.  The constructor performs no team dispatch: no
member's `process_request` appears anywhere in it (nor in this embedding's
inputs). -/
def supervisor_init (supervisor : UnderlyingAgent) (team : List Agent)
    (extra_tools : List String) : Except String SupervisorInitState :=
  let name := supervisor.name
  let supervisor_type :=
    if supervisor.kind == .bedrockLLM then "BEDROCK" else "ANTHROPIC"
  let tools := supervisor_tools ++ extra_tools
  match supervisor.tool_config with
  | some _ => .error "Supervisor tool config already set. Please do not set it manually."
  | none =>
    if supervisor.kind == .bedrockLLM || supervisor.kind == .anthropic then
      .ok { name := name
            id := generate_key_from_name name
            supervisor_type := supervisor_type
            team := team
            tool_names := tools
            toolMaxRecursions := 40 }
    else
      .error "Supervisor must be a BedrockLLMAgent or AnthropicAgent"

/-! ## Concrete fixtures used by witnesses and counterexamples -/

/-- A model stub that always requests a tool (every reply carries a
`ToolUse` block), whatever the conversation sent to it. -/
def c1_model : List ConversationMessage → ConversationMessage :=
  fun _ => { role := ASSISTANT, content := [.toolUse "t1" "get_current_date" "{}"] }

/-- A tool-round stub producing the aggregated USER-role tool-result
message. -/
def c1_toolResp : ConversationMessage → List ConversationMessage → ConversationMessage :=
  fun _ _ => { role := USER, content := [.toolResult "t1" "01/01/2026"] }

/-- An orchestrator environment whose classifier call raises. -/
def env_classify_raises : OrchestratorEnv where
  classify := .error ()
  dispatch := fun _ => .ok (.text "unused")

/-- A concrete registered agent. -/
def agentTech : Agent := Agent.ofOptions "Tech Agent" "Handles technical questions" true

/-- An environment whose classifier selects `agentTech` and whose agent
dispatch raises. -/
def env_dispatch_raises : OrchestratorEnv where
  classify := .ok { selected_agent := some agentTech, confidence := 9/10 }
  dispatch := fun _ => .error ()

/-- An environment whose classifier abstains (no selected agent) and whose
agent dispatch succeeds with a complete assistant message. -/
def env_abstains : OrchestratorEnv where
  classify := .ok { selected_agent := none, confidence := 0 }
  dispatch := fun _ => .ok (.message { role := ASSISTANT, content := [.text "hello"] })

/-- Team member A. -/
def agentA : Agent := Agent.ofOptions "A" "team member a" true

/-- Team member B. -/
def agentB : Agent := Agent.ofOptions "B" "team member b" true

/-- Team member C. -/
def agentC : Agent := Agent.ofOptions "C" "team member c" true

/-- A storage fetch stub with empty histories. -/
def c6_fetch : String → String → String → List ConversationMessage := fun _ _ _ => []

/-- A member `process_request` stub answering deterministically from the
member's name and the message content. -/
def c6_process : Agent → String → List ConversationMessage → ConversationMessage :=
  fun agent content _ =>
    { role := ASSISTANT, content := [.text ("reply-" ++ agent.name ++ "-" ++ content)] }

/-- A team member whose `save_chat` flag is false. -/
def agentNoSave : Agent := Agent.ofOptions "NoSave" "member with chat persistence disabled" false

/-- Two messages appended in order to the in-memory store. -/
def c5_m1 : ConversationMessage := { role := USER, content := [.text "first message"] }

/-- Second appended message. -/
def c5_m2 : ConversationMessage := { role := ASSISTANT, content := [.text "second message"] }

/-- A model reply carrying two `ToolUse` blocks. -/
def c7_reply : ConversationMessage :=
  { role := ASSISTANT,
    content := [ .toolUse "tool-1" "get_current_date" "{}",
                 .toolUse "tool-2" "send_messages" "{}" ] }

/-- A `_process_tool` stub whose result names the tool it ran. -/
def c7_process_tool : String → String → String :=
  fun tool_name _ => "result of " ++ tool_name

/-- An underlying agent whose `tool_config` is already set. -/
def supPreset : UnderlyingAgent where
  name := "Coordinator"
  description := "coordinates the team"
  kind := .bedrockLLM
  tool_config := some ()

/-- A supported underlying agent with no tool configuration. -/
def supFresh : UnderlyingAgent where
  name := "Coordinator"
  description := "coordinates the team"
  kind := .bedrockLLM
  tool_config := none

lemma join_two (s1 s2 : String) : String.join [s1, s2] = s1 ++ s2 := by
  simp [String.join]

/-! ## The claims -/

/-- C1: for every recursion budget `b ≥ 1`, the single-response tool-recursion
loop of `BedrockLLMAgent._handle_single_response_loop` terminates (it is a
total function of the fuel `b` by construction): when the model reply of
every round carries a `ToolUse` block the loop performs exactly `b` rounds —
`b` model invocations — and returns the round-`b` reply; when round `k`
(`k < b`, the first such round) yields a reply with no `ToolUse` block, the
loop stops there, after `k + 1` rounds, and returns that reply. -/
theorem tool_recursion_budget_terminates
    (model : List ConversationMessage → ConversationMessage)
    (toolResp : ConversationMessage → List ConversationMessage → ConversationMessage)
    (conv : List ConversationMessage) (b : Nat) (hb : 1 ≤ b) :
    ((∀ c, hasToolUse (model c) = true) →
      handle_single_response_loop model toolResp conv b
          = some (model (convBefore model toolResp conv (b - 1)))
        ∧ hsr_rounds model toolResp conv b = b)
    ∧ (∀ k, k < b →
        (∀ i, i < k → hasToolUse (model (convBefore model toolResp conv i)) = true) →
        hasToolUse (model (convBefore model toolResp conv k)) = false →
        handle_single_response_loop model toolResp conv b
            = some (model (convBefore model toolResp conv k))
          ∧ hsr_rounds model toolResp conv b = k + 1) := by
  constructor
  · intro hall
    obtain ⟨b', rfl⟩ : ∃ b', b = b' + 1 := ⟨b - 1, by omega⟩
    simpa using hsr_loop_all_tools model toolResp hall b' conv
  · intro k hk htools hnk
    exact hsr_loop_first_no_tool model toolResp k b conv hk htools hnk

/-- Witness for C1: with the always-tool model stub and budget 3, the loop
performs exactly 3 rounds and returns the last reply. -/
theorem tool_recursion_budget_terminates_witness :
    handle_single_response_loop c1_model c1_toolResp [] 3
        = some (c1_model (convBefore c1_model c1_toolResp [] 2))
      ∧ hsr_rounds c1_model c1_toolResp [] 3 = 3 := by
  have h := (tool_recursion_budget_terminates c1_model c1_toolResp [] 3 (by decide)).1
    (fun c => rfl)
  simpa using h

/-- C2: when the classifier call raises, `route_request` absorbs the failure
and returns an envelope whose output is the configured
`CLASSIFICATION_ERROR_MESSAGE`, whose metadata has
`agent_id = "no_agent_selected"`, and whose `additional_params` carry an
`error_type = classification_failed` tag. -/
theorem route_request_absorbs_classifier_failure
    (cfg : Config) (env : OrchestratorEnv) (default_agent : Agent)
    (user_input user_id session_id : String) (ap : List (String × String))
    (h : env.classify = .error ()) :
    (route_request cfg env default_agent user_input user_id session_id ap).1.output
        = .text cfg.CLASSIFICATION_ERROR_MESSAGE
    ∧ (route_request cfg env default_agent user_input user_id session_id ap).1.metadata.agent_id
        = "no_agent_selected"
    ∧ ((route_request cfg env default_agent user_input user_id session_id ap).1.metadata.additional_params).lookup
        "error_type" = some "classification_failed" := by
  refine ⟨?_, ?_, ?_⟩ <;>
    simp [route_request, h, create_metadata, lookup_setParam]

/-- Witness for C2 at a concrete raising environment. -/
theorem route_request_absorbs_classifier_failure_witness :
    (route_request DEFAULT_CONFIG env_classify_raises default_agent_def "hi" "u1" "s1" []).1.output
        = .text DEFAULT_CONFIG.CLASSIFICATION_ERROR_MESSAGE
    ∧ (route_request DEFAULT_CONFIG env_classify_raises default_agent_def "hi" "u1" "s1" []).1.metadata.agent_id
        = "no_agent_selected"
    ∧ ((route_request DEFAULT_CONFIG env_classify_raises default_agent_def "hi" "u1" "s1" []).1.metadata.additional_params).lookup
        "error_type" = some "classification_failed" :=
  route_request_absorbs_classifier_failure DEFAULT_CONFIG env_classify_raises
    default_agent_def "hi" "u1" "s1" [] rfl

/-- C3: when the selected agent's `process_request` raises, `route_request`
absorbs the failure into an envelope whose output is the configured general
routing error message, whose metadata still carries the selected agent's id
and name, and the run performs no `save_chat_message` call at all (the user
turn is only saved after a successful dispatch). -/
theorem route_request_absorbs_dispatch_failure
    (cfg : Config) (env : OrchestratorEnv) (default_agent : Agent)
    (user_input user_id session_id : String) (ap : List (String × String))
    (cr : ClassifierResult) (a : Agent)
    (hc : env.classify = .ok cr) (ha : cr.selected_agent = some a)
    (hd : env.dispatch a = .error ()) :
    (route_request cfg env default_agent user_input user_id session_id ap).1.output
        = .text cfg.GENERAL_ROUTING_ERROR_MSG_MESSAGE
    ∧ (route_request cfg env default_agent user_input user_id session_id ap).1.metadata.agent_id
        = a.id
    ∧ (route_request cfg env default_agent user_input user_id session_id ap).1.metadata.agent_name
        = a.name
    ∧ (route_request cfg env default_agent user_input user_id session_id ap).2 = [] := by
  have h1 : route_request cfg env default_agent user_input user_id session_id ap
      = route_dispatch cfg env user_input user_id session_id ap cr := by
    simp [route_request, hc, ha]
  rw [h1]
  refine ⟨?_, ?_, ?_, ?_⟩ <;>
    simp [route_dispatch, dispatch_to_agent, ha, hd, create_metadata]

/-- Witness for C3 at a concrete environment whose dispatch raises. -/
theorem route_request_absorbs_dispatch_failure_witness :
    (route_request DEFAULT_CONFIG env_dispatch_raises default_agent_def "hi" "u1" "s1" []).1.output
        = .text DEFAULT_CONFIG.GENERAL_ROUTING_ERROR_MSG_MESSAGE
    ∧ (route_request DEFAULT_CONFIG env_dispatch_raises default_agent_def "hi" "u1" "s1" []).1.metadata.agent_id
        = agentTech.id
    ∧ (route_request DEFAULT_CONFIG env_dispatch_raises default_agent_def "hi" "u1" "s1" []).1.metadata.agent_name
        = agentTech.name
    ∧ (route_request DEFAULT_CONFIG env_dispatch_raises default_agent_def "hi" "u1" "s1" []).2 = [] :=
  route_request_absorbs_dispatch_failure DEFAULT_CONFIG env_dispatch_raises
    default_agent_def "hi" "u1" "s1" []
    { selected_agent := some agentTech, confidence := 9/10 } agentTech rfl rfl rfl

/-- C4: when the classifier returns no selected agent and
`USE_DEFAULT_AGENT_IF_NONE_IDENTIFIED` is enabled, `route_request` proceeds
exactly as a dispatch of the fallback result — the registered default agent
with confidence 0 — so the default agent's `process_request` is the one
invoked, and the returned metadata carries the default agent's id and name;
the orchestrator's built-in default agent (named `DEFAULT`) has the derived,
non-empty id `"default"`. -/
theorem route_request_fallback_default_agent
    (cfg : Config) (env : OrchestratorEnv) (default_agent : Agent)
    (user_input user_id session_id : String) (ap : List (String × String))
    (cr : ClassifierResult)
    (hc : env.classify = .ok cr) (ha : cr.selected_agent = none)
    (hf : cfg.USE_DEFAULT_AGENT_IF_NONE_IDENTIFIED = true) :
    route_request cfg env default_agent user_input user_id session_id ap
        = route_dispatch cfg env user_input user_id session_id ap
            { selected_agent := some default_agent, confidence := 0 }
    ∧ dispatch_to_agent env { selected_agent := some default_agent, confidence := 0 }
        = env.dispatch default_agent
    ∧ (route_request cfg env default_agent user_input user_id session_id ap).1.metadata.agent_id
        = default_agent.id
    ∧ (route_request cfg env default_agent user_input user_id session_id ap).1.metadata.agent_name
        = default_agent.name
    ∧ default_agent_def.id = "default"
    ∧ default_agent_def.id ≠ "" := by
  have h1 : route_request cfg env default_agent user_input user_id session_id ap
      = route_dispatch cfg env user_input user_id session_id ap
          { selected_agent := some default_agent, confidence := 0 } := by
    simp [route_request, hc, ha, hf, get_fallback_result]
  refine ⟨h1, rfl, ?_, ?_, by decide, by decide⟩ <;>
    · rw [h1]
      cases hd : env.dispatch default_agent with
      | error e => simp [route_dispatch, dispatch_to_agent, hd, create_metadata]
      | ok out => simp [route_dispatch, dispatch_to_agent, hd, create_metadata]

/-- Witness for C4 at a concrete abstaining environment. -/
theorem route_request_fallback_default_agent_witness :
    route_request DEFAULT_CONFIG env_abstains default_agent_def "hi" "u1" "s1" []
        = route_dispatch DEFAULT_CONFIG env_abstains "hi" "u1" "s1" []
            { selected_agent := some default_agent_def, confidence := 0 }
    ∧ dispatch_to_agent env_abstains { selected_agent := some default_agent_def, confidence := 0 }
        = env_abstains.dispatch default_agent_def
    ∧ (route_request DEFAULT_CONFIG env_abstains default_agent_def "hi" "u1" "s1" []).1.metadata.agent_id
        = default_agent_def.id
    ∧ (route_request DEFAULT_CONFIG env_abstains default_agent_def "hi" "u1" "s1" []).1.metadata.agent_name
        = default_agent_def.name
    ∧ default_agent_def.id = "default"
    ∧ default_agent_def.id ≠ "" :=
  route_request_fallback_default_agent DEFAULT_CONFIG env_abstains default_agent_def
    "hi" "u1" "s1" [] { selected_agent := none, confidence := 0 } rfl rfl rfl

/-- C5: the claim says two sequential appends followed by a fetch of the same
`(user, session, agent)` key return exactly the two appended messages in
order; the `InMemoryChatStorage` of `orchestrator.py` stores nothing —
`save_chat_message` is a no-op and `fetch_chat` always returns `[]` — so the
fetch after the two appends is empty, not `[c5_m1, c5_m2]`. -/
theorem inmemory_store_drops_appends :
    InMemoryChatStorage.fetch_chat
        (InMemoryChatStorage.save_chat_message
          (InMemoryChatStorage.save_chat_message () "u1" "s1" "agent-x" c5_m1 100)
          "u1" "s1" "agent-x" c5_m2 100)
        "u1" "s1" "agent-x" = []
    ∧ ([] : List ConversationMessage) ≠ [c5_m1, c5_m2] := by
  exact ⟨rfl, by decide⟩

/-- C6 (counterexample): with team declared `[A, B, C]` and a `send_messages`
call addressing C then A, the concatenated tool result does NOT list C's
response before A's — the fan-out iterates the team (outer loop), so A's
response comes first. -/
theorem send_messages_not_in_message_order :
    ¬ ((send_messages c6_fetch c6_process [agentA, agentB, agentC] "u1" "s1"
          [("C", "ask c"), ("A", "ask a")]).1
        = (send_message c6_fetch c6_process agentC "ask c" "u1" "s1").1
          ++ (send_message c6_fetch c6_process agentA "ask a" "u1" "s1").1) := by
  decide

/-- C6 (amended): for a team declared as `[a, b, c]` with pairwise-distinct
relevant names and a `send_messages` call addressing c then a, the
concatenated tool result lists a's response before c's — sub-results appear
in team-declaration order, not message-list order (and completion order is
irrelevant: `asyncio.gather` returns results in task-creation order). -/
theorem send_messages_team_declaration_order
    (fetch_chat : String → String → String → List ConversationMessage)
    (process : Agent → String → List ConversationMessage → ConversationMessage)
    (a b c : Agent) (user_id session_id ca cc : String)
    (hac : a.name ≠ c.name) (hba : b.name ≠ a.name) (hbc : b.name ≠ c.name) :
    send_messages fetch_chat process [a, b, c] user_id session_id
        [(c.name, cc), (a.name, ca)]
      = ((send_message fetch_chat process a ca user_id session_id).1
          ++ (send_message fetch_chat process c cc user_id session_id).1,
         (send_message fetch_chat process a ca user_id session_id).2
          ++ (send_message fetch_chat process c cc user_id session_id).2) := by
  have h1 : (a.name == c.name) = false := beq_eq_false_iff_ne.mpr hac
  have h2 : (b.name == c.name) = false := beq_eq_false_iff_ne.mpr hbc
  have h3 : (b.name == a.name) = false := beq_eq_false_iff_ne.mpr hba
  have h4 : (c.name == a.name) = false := beq_eq_false_iff_ne.mpr (fun e => hac e.symm)
  simp [send_messages, h1, h2, h3, h4, join_two]

/-- Witness for the amended C6 at the concrete A, B, C team. -/
theorem send_messages_team_declaration_order_witness :
    send_messages c6_fetch c6_process [agentA, agentB, agentC] "u1" "s1"
        [(agentC.name, "ask c"), (agentA.name, "ask a")]
      = ((send_message c6_fetch c6_process agentA "ask a" "u1" "s1").1
          ++ (send_message c6_fetch c6_process agentC "ask c" "u1" "s1").1,
         (send_message c6_fetch c6_process agentA "ask a" "u1" "s1").2
          ++ (send_message c6_fetch c6_process agentC "ask c" "u1" "s1").2) :=
  send_messages_team_declaration_order c6_fetch c6_process agentA agentB agentC
    "u1" "s1" "ask a" "ask c" (by decide) (by decide) (by decide)

/-- C7: the claim says every one of the `n ≥ 1` `ToolUse` blocks of a model
reply is executed and all `n` results are aggregated into one USER-role
message; `supervisor_tool_handler`'s `return` sits inside the block loop, so
on a reply with two `ToolUse` blocks it returns after the first: the returned
USER message carries one tool result, not two. -/
theorem supervisor_tool_handler_first_tool_only :
    countToolUse c7_reply = 2
    ∧ supervisor_tool_handler c7_process_tool c7_reply
        = .ok (some { role := USER,
                      content := [toolResultToBedrockFormat "tool-1" "result of get_current_date"] }) := by
  exact ⟨rfl, rfl⟩

/-- C8 (counterexample): a fan-out sub-dispatch to a member whose `save_chat`
flag is false still persists messages under that member's key —
`send_message` saves the user and assistant turns unconditionally. -/
theorem send_message_saves_despite_save_chat_false :
    agentNoSave.save_chat = false
    ∧ (send_message c6_fetch c6_process agentNoSave "hello" "u1" "s1").2 ≠ [] := by
  exact ⟨rfl, by decide⟩

/-- C8 (amended): every fan-out sub-dispatch persists the member's user turn
and assistant turn under the member's own `(user, session, agent_id)` key
unconditionally; the member's `save_chat` flag only gates whether the
member's prior history is fetched (when it is false, the sub-dispatch runs as
if the store were empty). -/
theorem send_message_always_persists_turns
    (fetch_chat : String → String → String → List ConversationMessage)
    (process : Agent → String → List ConversationMessage → ConversationMessage)
    (agent : Agent) (content user_id session_id : String) :
    (send_message fetch_chat process agent content user_id session_id).2
      = [ { user_id := user_id, session_id := session_id, agent_id := agent.id,
            message := { role := USER, content := [.text content] } },
          { user_id := user_id, session_id := session_id, agent_id := agent.id,
            message := { role := ASSISTANT,
                         content := [.text (firstTextD (process agent content
                           (sup_history fetch_chat agent user_id session_id)))] } } ]
    ∧ (agent.save_chat = false →
        send_message fetch_chat process agent content user_id session_id
          = send_message (fun _ _ _ => []) process agent content user_id session_id) := by
  constructor
  · rfl
  · intro h
    simp [send_message, sup_history, h]

/-- Witness for the amended C8 at a concrete member with `save_chat = false`. -/
theorem send_message_always_persists_turns_witness :
    (send_message c6_fetch c6_process agentNoSave "hello" "u1" "s1").2
      = [ { user_id := "u1", session_id := "s1", agent_id := agentNoSave.id,
            message := { role := USER, content := [.text "hello"] } },
          { user_id := "u1", session_id := "s1", agent_id := agentNoSave.id,
            message := { role := ASSISTANT,
                         content := [.text (firstTextD (c6_process agentNoSave "hello"
                           (sup_history c6_fetch agentNoSave "u1" "s1")))] } } ]
    ∧ (agentNoSave.save_chat = false →
        send_message c6_fetch c6_process agentNoSave "hello" "u1" "s1"
          = send_message (fun _ _ _ => []) c6_process agentNoSave "hello" "u1" "s1") :=
  send_message_always_persists_turns c6_fetch c6_process agentNoSave "hello" "u1" "s1"

/-- C9: constructing a Supervisor over an underlying agent whose
`tool_config` is already set fails with the construction-time `RuntimeError`
(the check precedes everything else that could dispatch; the constructor
never invokes a team member), while construction over a supported underlying
agent with no pre-set tool config succeeds. -/
theorem supervisor_init_tool_config_ownership
    (sup : UnderlyingAgent) (team : List Agent) (extra_tools : List String) :
    (sup.tool_config.isSome = true →
      supervisor_init sup team extra_tools
        = .error "Supervisor tool config already set. Please do not set it manually.")
    ∧ (sup.tool_config = none → sup.kind ≠ .other →
        ∃ st, supervisor_init sup team extra_tools = .ok st) := by
  constructor
  · intro h
    obtain ⟨tc, htc⟩ := Option.isSome_iff_exists.mp h
    simp [supervisor_init, htc]
  · intro h hk
    cases hkind : sup.kind with
    | bedrockLLM =>
      exact ⟨{ name := sup.name, id := generate_key_from_name sup.name,
               supervisor_type := "BEDROCK", team := team,
               tool_names := supervisor_tools ++ extra_tools, toolMaxRecursions := 40 },
             by simp [supervisor_init, h, hkind]⟩
    | anthropic =>
      exact ⟨{ name := sup.name, id := generate_key_from_name sup.name,
               supervisor_type := "ANTHROPIC", team := team,
               tool_names := supervisor_tools ++ extra_tools, toolMaxRecursions := 40 },
             by simp [supervisor_init, h, hkind]⟩
    | other => exact absurd hkind hk

/-- Witness for C9 at a pre-configured and a fresh underlying agent. -/
theorem supervisor_init_tool_config_ownership_witness :
    supervisor_init supPreset [] []
        = .error "Supervisor tool config already set. Please do not set it manually."
    ∧ ∃ st, supervisor_init supFresh [] [] = .ok st :=
  ⟨(supervisor_init_tool_config_ownership supPreset [] []).1 rfl,
   (supervisor_init_tool_config_ownership supFresh [] []).2 rfl (by decide)⟩

/-- C10: every value `route_request` returns — success, classification
failure, no-agent short-circuit, or dispatch failure, and also when the
dispatched agent produced a lazy stream (`AgentOutput.stream`) — is an
`AgentResponse` with `streaming = false`. -/
theorem route_request_streaming_always_false
    (cfg : Config) (env : OrchestratorEnv) (default_agent : Agent)
    (user_input user_id session_id : String) (ap : List (String × String)) :
    (route_request cfg env default_agent user_input user_id session_id ap).1.streaming
      = false := by
  have hd : ∀ cr, (route_dispatch cfg env user_input user_id session_id ap cr).1.streaming
      = false := by
    intro cr
    cases h : dispatch_to_agent env cr with
    | error e => simp [route_dispatch, h]
    | ok out => simp [route_dispatch, h]
  cases hc : env.classify with
  | error e => simp [route_request, hc]
  | ok cr =>
    cases hs : cr.selected_agent with
    | none =>
      by_cases hf : cfg.USE_DEFAULT_AGENT_IF_NONE_IDENTIFIED
      · simp [route_request, hc, hs, hf, hd]
      · simp [route_request, hc, hs, hf]
    | some a => simp [route_request, hc, hs, hd]

end MAO
